import Mathlib

/-!
Shallow embedding of the analytics utility module (src/utils/analytics.ts)
of the 9line landing page, together with theorems settling the behavioral
claims of its specification.

Modelling conventions:
* JavaScript values appearing in event payloads are modelled by `JsVal`
  (strings, integer numbers, booleans, `null`, `undefined`).
* A JavaScript object literal is a `Rec`: a list of key/value bindings in
  source order; a later binding for the same key shadows an earlier one,
  exactly as in object-literal / spread semantics (`getProp` scans from the
  end).
* The ambient browser state (availability of the two analytics clients,
  viewport, location, document metadata, clock) is an explicit `Env` record.
* External calls performed by the module (gtag command invocations and
  RudderStack `track` calls) are reified as a `Call` list returned by each
  embedded function; a thrown JavaScript exception is an `Except.error`.
-/

namespace Analytics

/-- Values of the JavaScript payloads assembled by the module. -/
inductive JsVal where
  | str (s : String)
  | num (n : Int)
  | bool (b : Bool)
  | null
  | undefined
deriving DecidableEq, Repr

/-- JavaScript truthiness for the values we model. -/
def jsTruthy : JsVal → Bool
  | .str s => !s.isEmpty
  | .num n => n != 0
  | .bool b => b
  | .null => false
  | .undefined => false

/-- JavaScript logical-or `a || b`. -/
def jsOr (a b : JsVal) : JsVal :=
  if jsTruthy a then a else b

/-- A JavaScript object: bindings in source order, later bindings shadow. -/
abbrev Rec := List (String × JsVal)

/-- Property read: the LAST binding of the key wins (object-literal and
spread semantics); `none` when the key is absent. -/
def getProp (r : Rec) (k : String) : Option JsVal :=
  (r.reverse.find? (fun p => p.1 == k)).map (·.2)

/-- Property read on a possibly-undefined object (`obj?.k`): `undefined`
when the object itself or the key is missing. -/
def getPropD (r : Option Rec) (k : String) : JsVal :=
  match r with
  | none => .undefined
  | some r => (getProp r k).getD .undefined

/-- Ambient browser environment visible to the module. -/
structure Env where
  /-- whether `typeof window.gtag === 'function'` -/
  gtagAvailable : Bool
  /-- whether `typeof window.rudderanalytics !== 'undefined'` -/
  rudderAvailable : Bool
  innerWidth : Nat
  innerHeight : Nat
  screenWidth : Nat
  screenHeight : Nat
  /-- `window.location.pathname` -/
  pathname : String
  /-- `window.location.search` -/
  search : String
  /-- `window.location.href` -/
  href : String
  /-- `document.title` -/
  title : String
  /-- `document.referrer` -/
  referrer : String
  /-- `navigator.language` -/
  language : String
  /-- `Intl.DateTimeFormat().resolvedOptions().timeZone` -/
  timezone : String
  /-- `navigator.userAgent` -/
  userAgent : String
  /-- `navigator.connection?.effectiveType` (`none` when unavailable) -/
  connectionType : Option String
  /-- `Date.now()` in milliseconds -/
  nowMs : Nat
  /-- `new Date().toISOString()` -/
  nowISO : String
deriving Repr

/-- External calls the module can make. -/
inductive Call where
  | gtagConfig (targetId : String) (params : Rec)
  | gtagEvent (action : String) (params : Rec)
  | rudderTrack (eventName : String) (properties : Rec)
  | rudderIdentify (userId : String) (traits : Rec)
deriving DecidableEq, Repr

/-- A thrown JavaScript exception. -/
inductive JsError where
  | typeError
deriving DecidableEq, Repr

/-- Source `isGtagAvailable`. -/
def isGtagAvailable (env : Env) : Bool :=
  env.gtagAvailable

/-- Source `isRudderStackAvailable`. -/
def isRudderStackAvailable (env : Env) : Bool :=
  env.rudderAvailable

/-- Source `trackEvent`: gated on gtag availability; optional `label` and
`value` arrive as `undefined` when not supplied (the payload still carries
the keys, bound to `undefined`, as in the source object literal). -/
def trackEvent (env : Env) (action : String) (category label value : JsVal) : List Call :=
  if isGtagAvailable env then
    [Call.gtagEvent action
      [("event_category", category), ("event_label", label), ("value", value)]]
  else []

/-- Source `trackFormSubmission`. -/
def trackFormSubmission (env : Env) (formName : String) (success : Bool) : List Call :=
  trackEvent env (if success then "form_submit_success" else "form_submit_error")
    (.str "engagement") (.str formName) (.num (if success then 1 else 0))

/-- Source `trackCompetitiveAnalysisRequest`. The first statement routes
through the guarded `trackEvent`; the second statement invokes `window.gtag`
directly with NO availability guard, so when `window.gtag` is not a function
the call throws a TypeError (modelled as `Except.error`). -/
def trackCompetitiveAnalysisRequest (env : Env) (email : String) (domain : Option String) :
    Except JsError (List Call) :=
  let calls := trackEvent env "competitive_analysis_request" (.str "lead_generation")
    (.str (domain.getD "no_domain")) .undefined
  if isGtagAvailable env then
    .ok (calls ++ [Call.gtagEvent "conversion"
      [("send_to", .str "G-PWZM3DK5MW"),
       ("event_category", .str "lead_generation"),
       ("event_label", .str "free_analysis_form"),
       ("user_id", .str email)]])
  else
    .error .typeError

/-- The two literal values of the `'view' | 'click'` union. -/
inductive PricingAction where
  | view
  | click
deriving DecidableEq, Repr

/-- String form of a pricing action. -/
def PricingAction.toStr : PricingAction → String
  | .view => "view"
  | .click => "click"

/-- Source `trackPricingInteraction`. -/
def trackPricingInteraction (env : Env) (plan : String) (action : PricingAction) : List Call :=
  trackEvent env ("pricing_" ++ action.toStr) (.str "business") (.str plan) .undefined

/-- Source `getDeviceType`, as a pure function of the viewport width. -/
def deviceTypeOfWidth (width : Nat) : String :=
  if width < 768 then "mobile"
  else if width < 1024 then "tablet"
  else "desktop"

/-- Source `getDeviceType` reading the width from the environment. -/
def getDeviceType (env : Env) : String :=
  deviceTypeOfWidth env.innerWidth

/-- JavaScript `s.toLowerCase()` for the ASCII paths this module sees,
written by structural recursion over the character list so that it
evaluates inside the kernel. -/
def jsToLower (s : String) : String :=
  ⟨s.data.map Char.toLower⟩

/-- JavaScript `String.prototype.includes`, on character lists. -/
def includesAux (sub : List Char) : List Char → Bool
  | [] => sub.isPrefixOf ([] : List Char)
  | c :: t => sub.isPrefixOf (c :: t) || includesAux sub t

/-- JavaScript `s.includes(sub)`. -/
def jsIncludes (s sub : String) : Bool :=
  includesAux sub.data s.data

/-- Source `getPageCategory`, as a pure function of the path (the source
binds `path = p.toLowerCase()` once; the pure expression is inlined here). -/
def pageCategoryOfPath (p : String) : String :=
  if jsToLower p = "/" ∨ jsToLower p = "/index.html" then "home"
  else if jsIncludes (jsToLower p) "/pricing" then "pricing"
  else if jsIncludes (jsToLower p) "/features" then "features"
  else if jsIncludes (jsToLower p) "/about" then "about"
  else if jsIncludes (jsToLower p) "/contact" then "contact"
  else if jsIncludes (jsToLower p) "/blog" then "blog"
  else "other"

/-- Source `getPageCategory` reading the path from the environment. -/
def getPageCategory (env : Env) : String :=
  pageCategoryOfPath env.pathname

/-- Split a character list at every occurrence of a separator character
(the behavior of `String.splitOn` with a one-character separator). -/
def splitOnSep (sep : Char) : List Char → List (List Char)
  | [] => [[]]
  | c :: t =>
    if c = sep then [] :: splitOnSep sep t
    else
      match splitOnSep sep t with
      | [] => [[c]]
      | h :: r => (c :: h) :: r

/-- Join character lists with a separator character (inverse of
`splitOnSep` on its own output). -/
def joinSep (sep : Char) : List (List Char) → List Char
  | [] => []
  | [x] => x
  | x :: xs => x ++ sep :: joinSep sep xs

/-- Parse a URL query string the way `URLSearchParams` does for the plain
(unescaped) inputs this module sees: strip a leading `?`, split on `&`,
split each pair at its first `=` (a pair without `=` gets the empty value);
empty segments contribute nothing. Percent-decoding is not modelled; the
spec itself reads values verbatim. -/
def parseSearch (s : String) : List (String × String) :=
  let body : List Char :=
    match s.data with
    | '?' :: t => t
    | l => l
  (splitOnSep '&' body).filterMap fun seg =>
    if seg = [] then none
    else
      match splitOnSep '=' seg with
      | [] => none
      | k :: rest => some (⟨k⟩, ⟨joinSep '=' rest⟩)

/-- `URLSearchParams.get`: first value bound to the key, `none` for absent
(the JavaScript API returns `null`). -/
def searchGet (params : List (String × String)) (k : String) : Option String :=
  (params.find? (fun p => p.1 == k)).map (·.2)

/-- Lift `URLSearchParams.get`'s `string | null` result into `JsVal`. -/
def optNullStr : Option String → JsVal
  | some s => .str s
  | none => .null

/-- Source `getUTMParameters`, as a pure function of the query string. -/
def utmOfSearch (search : String) : Rec :=
  let params := parseSearch search
  [("utm_source", optNullStr (searchGet params "utm_source")),
   ("utm_medium", optNullStr (searchGet params "utm_medium")),
   ("utm_campaign", optNullStr (searchGet params "utm_campaign")),
   ("utm_content", optNullStr (searchGet params "utm_content")),
   ("utm_term", optNullStr (searchGet params "utm_term"))]

/-- Source `getUTMParameters` reading the query string from the environment. -/
def getUTMParameters (env : Env) : Rec :=
  utmOfSearch env.search

/-- Remainder of a character list after the first occurrence of a pattern
(`none` when the pattern does not occur). -/
def afterFirst (pat : List Char) : List Char → Option (List Char)
  | [] => if pat.isPrefixOf ([] : List Char) then some [] else none
  | c :: t =>
    if pat.isPrefixOf (c :: t) then some ((c :: t).drop pat.length)
    else afterFirst pat t

/-- Hostname of a well-formed URL (`new URL(u).hostname`): the part after
the `://` scheme separator up to the first `/`, with any `:port` suffix
removed. -/
def urlHostname (u : String) : String :=
  let afterScheme := (afterFirst "://".data u.data).getD []
  let hostPort := (splitOnSep '/' afterScheme).getD 0 []
  ⟨(splitOnSep ':' hostPort).getD 0 []⟩

/-- JavaScript `value || fallback` on an optional string. -/
def strOrDefault (o : Option String) (fallback : String) : String :=
  match o with
  | some s => if s.isEmpty then fallback else s
  | none => fallback

/-- Source `getEnrichedContext`: the full enrichment bag, in the source's
field order (the UTM spread sits between `referrer_domain` and
`connection_type`). -/
def getEnrichedContext (env : Env) : Rec :=
  [("device_type", .str (getDeviceType env)),
   ("screen_resolution", .str (toString env.screenWidth ++ "x" ++ toString env.screenHeight)),
   ("viewport_size", .str (toString env.innerWidth ++ "x" ++ toString env.innerHeight)),
   ("browser_language", .str env.language),
   ("timezone", .str env.timezone),
   ("user_agent", .str env.userAgent),
   ("page_category", .str (getPageCategory env)),
   ("page_url", .str env.href),
   ("page_path", .str env.pathname),
   ("page_title", .str env.title),
   ("referrer", .str env.referrer),
   ("referrer_domain", if env.referrer.isEmpty then JsVal.null else .str (urlHostname env.referrer))]
  ++ getUTMParameters env
  ++ [("connection_type", .str (strOrDefault env.connectionType "unknown")),
      ("timestamp", .str env.nowISO)]

/-- Source `trackDualEvent`: GA4 leg through `trackEvent` (category from
`properties?.category || 'engagement'`, label from `properties?.label`),
then a RudderStack leg when available, spreading the caller properties
under the page/device/timestamp context fields. -/
def trackDualEvent (env : Env) (eventName : String) (properties : Option Rec) : List Call :=
  trackEvent env eventName (jsOr (getPropD properties "category") (.str "engagement"))
    (getPropD properties "label") .undefined
  ++ (if isRudderStackAvailable env then
        [Call.rudderTrack eventName
          ((properties.getD []) ++
           [("page_category", .str (getPageCategory env)),
            ("device_type", .str (getDeviceType env)),
            ("timestamp", .str env.nowISO)])]
      else [])

/-- Source `identifyUser`. -/
def identifyUser (env : Env) (userId : String) (traits : Option Rec) : List Call :=
  if isRudderStackAvailable env then
    [Call.rudderIdentify userId
      ((traits.getD []) ++ [("identified_at", .str env.nowISO)])]
  else []

/-- Source `trackFormSubmitDual`. -/
def trackFormSubmitDual (env : Env) (formName : String) (success : Bool) : List Call :=
  trackFormSubmission env formName success
  ++ (if isRudderStackAvailable env then
        [Call.rudderTrack (if success then "Form Submitted" else "Form Error")
          [("form_name", .str formName), ("success", .bool success)]]
      else [])

/-- Source `trackPricingInteractionDual`. -/
def trackPricingInteractionDual (env : Env) (plan : String) (action : PricingAction) : List Call :=
  trackPricingInteraction env plan action
  ++ (if isRudderStackAvailable env then
        [Call.rudderTrack
          (match action with
           | .view => "Pricing Viewed"
           | .click => "Pricing Plan Selected")
          [("plan", .str plan), ("action", .str action.toStr)]]
      else [])

/-- Source `trackEnhanced`: full enrichment first, caller properties spread
on top (so the caller wins every key collision), then the GA4 leg and the
RudderStack leg carrying the merged record (the source binds the merged
record once as `enrichedProps`; the pure expression is inlined here). -/
def trackEnhanced (env : Env) (eventName : String) (properties : Option Rec) : List Call :=
  trackEvent env eventName
    (jsOr ((getProp (getEnrichedContext env ++ properties.getD []) "category").getD .undefined)
      (.str "engagement"))
    ((getProp (getEnrichedContext env ++ properties.getD []) "label").getD .undefined) .undefined
  ++ (if isRudderStackAvailable env then
        [Call.rudderTrack eventName (getEnrichedContext env ++ properties.getD [])]
      else [])

/-- Browser `localStorage`, restricted to the records this module stores
(the JSON round-trip `JSON.parse ∘ JSON.stringify` on these records is the
identity, so we store the record itself). -/
abbrev Storage := String → Option Rec

/-- The module's single persistent key. -/
def FIRST_TOUCH_KEY : String := "9line_first_touch"

/-- `localStorage.setItem`. -/
def setItem (store : Storage) (k : String) (v : Rec) : Storage :=
  fun k' => if k' = k then some v else store k'

/-- Source `trackFirstTouch`: guarded by the key's absence; when absent it
synthesizes the first-touch record, persists it, and emits it to
RudderStack when that client is available. -/
def trackFirstTouch (env : Env) (store : Storage) : Storage × List Call :=
  match store FIRST_TOUCH_KEY with
  | some _ => (store, [])
  | none =>
    let firstTouch : Rec :=
      getUTMParameters env ++
      [("referrer", .str env.referrer),
       ("landing_page", .str env.href),
       ("timestamp", .str env.nowISO)]
    (setItem store FIRST_TOUCH_KEY firstTouch,
     if isRudderStackAvailable env then
       [Call.rudderTrack "First Touch" firstTouch]
     else [])

/-- The module-level `clickCounts` map (`clickCounts[k] || 0` reads 0 for a
key never clicked). -/
abbrev RageState := String → Nat

/-- The empty `clickCounts` map at module load. -/
def rageInit : RageState := fun _ => 0

/-- The DOM element fields `detectRageClicks` reads. -/
structure DomElement where
  id : String
  className : String
deriving DecidableEq, Repr

/-- Source `element.id || element.className || 'unknown'` (empty strings
are falsy). -/
def elementIdOf (e : DomElement) : String :=
  if !e.id.isEmpty then e.id
  else if !e.className.isEmpty then e.className
  else "unknown"

/-- Write one counter of the `clickCounts` map
(`clickCounts[elementId] = clickCounts[elementId] + 1`). -/
def bumpCount (counts : RageState) (k : String) : RageState :=
  fun j => if j = k then counts k + 1 else counts j

/-- Reset one counter of the `clickCounts` map to 0. -/
def resetCount (counts : RageState) (k : String) : RageState :=
  fun j => if j = k then 0 else counts j

/-- Source `detectRageClicks`: increment the element's counter; when the
incremented counter reaches the threshold (`>= 5`), fire one enhanced
`Rage Click Detected` event carrying the counter value and reset that
counter to 0. -/
def detectRageClicks (env : Env) (counts : RageState) (e : DomElement) : RageState × List Call :=
  if 5 ≤ bumpCount counts (elementIdOf e) (elementIdOf e) then
    (resetCount (bumpCount counts (elementIdOf e)) (elementIdOf e),
     trackEnhanced env "Rage Click Detected"
       (some [("element_id", .str (elementIdOf e)),
              ("click_count", .num (bumpCount counts (elementIdOf e) (elementIdOf e)))]))
  else
    (bumpCount counts (elementIdOf e), [])

/-- The module-level `pageVisibleStart` timestamp (milliseconds). -/
structure VisState where
  pageVisibleStart : Nat
deriving DecidableEq, Repr

/-- Source `visibilitychange` handler installed by `setupVisibilityTracking`:
on a transition to Hidden, emit `Page Hidden` with the elapsed visible time
in whole seconds (`Math.floor((Date.now() - pageVisibleStart) / 1000)`); on
a transition to Visible, reset the timer to now and emit `Page Visible`
with an empty caller-property object. -/
def visibilityChangeStep (env : Env) (st : VisState) (hidden : Bool) : VisState × List Call :=
  if hidden then
    (st,
     trackEnhanced env "Page Hidden"
       (some [("visible_duration_seconds",
               .num (((env.nowMs : Int) - (st.pageVisibleStart : Int)).fdiv 1000))]))
  else
    ({ pageVisibleStart := env.nowMs },
     trackEnhanced env "Page Visible" (some []))

/-- Does a call report the named event to RudderStack? -/
def isRudderTrackNamed (name : String) : Call → Bool
  | .rudderTrack n _ => n == name
  | _ => false

/-- Number of RudderStack `track` calls carrying the given event name. -/
def rudderNamedCount (name : String) (calls : List Call) : Nat :=
  (calls.filter (isRudderTrackNamed name)).length

/-- Whether some RudderStack `track` call carries the given event name. -/
def containsRudderTrackNamed (name : String) (calls : List Call) : Bool :=
  calls.any (isRudderTrackNamed name)

/-- Does a call report the named gtag event action? -/
def isGtagEventNamed (action : String) : Call → Bool
  | .gtagEvent a _ => a == action
  | _ => false

/-- Whether some gtag `event` call carries the given action. -/
def containsGtagEventNamed (action : String) (calls : List Call) : Bool :=
  calls.any (isGtagEventNamed action)

/-- The `clickCounts` state after `n` clicks on the same element, starting
from the empty map at module load. -/
def clickTrace (env : Env) (e : DomElement) : Nat → RageState
  | 0 => rageInit
  | n + 1 => (detectRageClicks env (clickTrace env e n) e).1

/-- The calls emitted by the `(n+1)`-st click on the element. -/
def clickCalls (env : Env) (e : DomElement) (n : Nat) : List Call :=
  (detectRageClicks env (clickTrace env e n) e).2

/-- A sequence of `trackFirstTouch` invocations (one per page load within
one storage lifetime), threading the storage and collecting all calls. -/
def trackFirstTouchSeq (store : Storage) : List Env → Storage × List Call
  | [] => (store, [])
  | env :: rest =>
    let r := trackFirstTouch env store
    let rr := trackFirstTouchSeq r.1 rest
    (rr.1, r.2 ++ rr.2)

/-- A concrete browser environment with both analytics clients present. -/
def baseEnv : Env :=
  { gtagAvailable := true
    rudderAvailable := true
    innerWidth := 1280
    innerHeight := 800
    screenWidth := 1440
    screenHeight := 900
    pathname := "/"
    search := ""
    href := "https://9line.dev/"
    title := "9line"
    referrer := ""
    language := "en-US"
    timezone := "UTC"
    userAgent := "agent"
    connectionType := none
    nowMs := 5000
    nowISO := "2025-11-10T00:00:00.000Z" }

/-- Environment where `window.gtag` is not a function. -/
def envNoGtag : Env :=
  { baseEnv with gtagAvailable := false }

/-- Environment where only the tag-management client is present. -/
def envGtagOnly : Env :=
  { baseEnv with rudderAvailable := false }

/-- Environment where only the customer-data-platform client is present. -/
def envRudderOnly : Env :=
  { baseEnv with gtagAvailable := false }

/-- Environment with neither analytics client present. -/
def envNeither : Env :=
  { baseEnv with gtagAvailable := false, rudderAvailable := false }

/-- Empty storage: no key has ever been written. -/
def emptyStorage : Storage := fun _ => none

/-- The five UTM keys, in the order the source builds the record. -/
def utmKeys : List String :=
  ["utm_source", "utm_medium", "utm_campaign", "utm_content", "utm_term"]

/-- C5: for every viewport width `w`, `getDeviceType` classifies the device
as mobile iff `w < 768`, as tablet iff `768 ≤ w < 1024`, and as desktop iff
`w ≥ 1024`. -/
theorem C5_device_type_thresholds (env : Env) :
    (getDeviceType env = "mobile" ↔ env.innerWidth < 768) ∧
    (getDeviceType env = "tablet" ↔ 768 ≤ env.innerWidth ∧ env.innerWidth < 1024) ∧
    (getDeviceType env = "desktop" ↔ 1024 ≤ env.innerWidth) := by
  unfold getDeviceType deviceTypeOfWidth
  split_ifs with h1 h2
  all_goals simp_all
  all_goals omega

/-- C6: `getPageCategory` lower-cases the path and applies the rules in a
fixed priority order (home exact match first, then the pricing, features,
about, contact, blog substring checks in that order, falling back to
"other"), first match winning; in particular `/pricing/enterprise` maps to
pricing, `/` to home, and `/unknown-page` to other. -/
theorem C6_page_category_priority :
    (∀ env, getPageCategory env = pageCategoryOfPath env.pathname) ∧
    (∀ p : String,
      (pageCategoryOfPath p = "home" ↔
        (jsToLower p = "/" ∨ jsToLower p = "/index.html")) ∧
      (pageCategoryOfPath p = "pricing" ↔
        ¬(jsToLower p = "/" ∨ jsToLower p = "/index.html") ∧
        jsIncludes (jsToLower p) "/pricing" = true) ∧
      (pageCategoryOfPath p = "features" ↔
        ¬(jsToLower p = "/" ∨ jsToLower p = "/index.html") ∧
        jsIncludes (jsToLower p) "/pricing" = false ∧
        jsIncludes (jsToLower p) "/features" = true) ∧
      (pageCategoryOfPath p = "about" ↔
        ¬(jsToLower p = "/" ∨ jsToLower p = "/index.html") ∧
        jsIncludes (jsToLower p) "/pricing" = false ∧
        jsIncludes (jsToLower p) "/features" = false ∧
        jsIncludes (jsToLower p) "/about" = true) ∧
      (pageCategoryOfPath p = "contact" ↔
        ¬(jsToLower p = "/" ∨ jsToLower p = "/index.html") ∧
        jsIncludes (jsToLower p) "/pricing" = false ∧
        jsIncludes (jsToLower p) "/features" = false ∧
        jsIncludes (jsToLower p) "/about" = false ∧
        jsIncludes (jsToLower p) "/contact" = true) ∧
      (pageCategoryOfPath p = "blog" ↔
        ¬(jsToLower p = "/" ∨ jsToLower p = "/index.html") ∧
        jsIncludes (jsToLower p) "/pricing" = false ∧
        jsIncludes (jsToLower p) "/features" = false ∧
        jsIncludes (jsToLower p) "/about" = false ∧
        jsIncludes (jsToLower p) "/contact" = false ∧
        jsIncludes (jsToLower p) "/blog" = true) ∧
      (pageCategoryOfPath p = "other" ↔
        ¬(jsToLower p = "/" ∨ jsToLower p = "/index.html") ∧
        jsIncludes (jsToLower p) "/pricing" = false ∧
        jsIncludes (jsToLower p) "/features" = false ∧
        jsIncludes (jsToLower p) "/about" = false ∧
        jsIncludes (jsToLower p) "/contact" = false ∧
        jsIncludes (jsToLower p) "/blog" = false)) ∧
    pageCategoryOfPath "/pricing/enterprise" = "pricing" ∧
    pageCategoryOfPath "/" = "home" ∧
    pageCategoryOfPath "/unknown-page" = "other" := by
  refine ⟨fun _ => rfl, fun p => ?_, by decide, by decide, by decide⟩
  unfold pageCategoryOfPath
  split_ifs with h1 h2 h3 h4 h5 h6 <;> simp_all

/-- C7: for every query string, `getUTMParameters` returns a record with
exactly the five UTM keys; each key present in the query string is bound to
its verbatim value, each absent key to an explicit `null`; on
`?utm_source=x&utm_campaign=y` the result is the expected record. -/
theorem C7_utm_explicit_nulls :
    (∀ env, getUTMParameters env = utmOfSearch env.search) ∧
    (∀ s : String, (utmOfSearch s).map Prod.fst = utmKeys) ∧
    (∀ s : String, ∀ k ∈ utmKeys,
      (searchGet (parseSearch s) k = none →
        getProp (utmOfSearch s) k = some JsVal.null) ∧
      (∀ v, searchGet (parseSearch s) k = some v →
        getProp (utmOfSearch s) k = some (JsVal.str v))) ∧
    utmOfSearch "?utm_source=x&utm_campaign=y" =
      [("utm_source", JsVal.str "x"), ("utm_medium", JsVal.null),
       ("utm_campaign", JsVal.str "y"), ("utm_content", JsVal.null),
       ("utm_term", JsVal.null)] := by
  refine ⟨fun _ => rfl, fun s => rfl, fun s k hk => ?_, by decide⟩
  fin_cases hk <;>
    exact ⟨fun h => by simp [utmOfSearch, getProp, optNullStr, h],
           fun v h => by simp [utmOfSearch, getProp, optNullStr, h]⟩

/-- C7 witness: concrete evaluation of the key-binding properties on the
query string `?utm_source=x&utm_campaign=y`. -/
theorem C7_witness :
    getProp (utmOfSearch "?utm_source=x&utm_campaign=y") "utm_source" =
      some (JsVal.str "x") ∧
    getProp (utmOfSearch "?utm_source=x&utm_campaign=y") "utm_medium" =
      some JsVal.null :=
  ⟨(C7_utm_explicit_nulls.2.2.1 "?utm_source=x&utm_campaign=y" "utm_source"
      (by simp [utmKeys])).2 "x" (by decide),
   (C7_utm_explicit_nulls.2.2.1 "?utm_source=x&utm_campaign=y" "utm_medium"
      (by simp [utmKeys])).1 (by decide)⟩

/-- C1: the availability contract fails on `trackCompetitiveAnalysisRequest`:
in every environment where `window.gtag` is not a function, the unguarded
`window.gtag('event', 'conversion', ...)` call throws a TypeError instead of
silently no-opping, while the guarded `trackEvent` path does no-op. -/
theorem C1_conversion_call_throws_without_gtag (env : Env)
    (h : isGtagAvailable env = false) :
    (∀ email domain, trackCompetitiveAnalysisRequest env email domain =
      Except.error JsError.typeError) ∧
    (∀ action category label value, trackEvent env action category label value = []) := by
  constructor
  · intro email domain
    unfold trackCompetitiveAnalysisRequest
    rw [h]
    simp
  · intro action category label value
    unfold trackEvent
    rw [h]
    simp

/-- C1 witness: the concrete failing input — calling the function with
`window.gtag` absent throws rather than no-ops. -/
theorem C1_witness :
    trackCompetitiveAnalysisRequest envNoGtag "user@example.com" (some "example.com") =
      Except.error JsError.typeError :=
  (C1_conversion_call_throws_without_gtag envNoGtag rfl).1 "user@example.com" (some "example.com")

/-- C3: `trackFirstTouch` is idempotent with respect to storage: after a
first call the key `9line_first_touch` holds a record, and a second call in
the same storage lifetime (under any environment) changes nothing and emits
nothing, leaving the identical record in place. -/
theorem C3_first_touch_idempotent (env1 env2 : Env) (store : Storage) :
    (∃ r, (trackFirstTouch env1 store).1 FIRST_TOUCH_KEY = some r) ∧
    trackFirstTouch env2 (trackFirstTouch env1 store).1 =
      ((trackFirstTouch env1 store).1, []) := by
  unfold trackFirstTouch
  cases h : store FIRST_TOUCH_KEY with
  | some r => simp [h]
  | none => simp [h, setItem]

/-- C4: each dual-tracking function forwards to the tag-management backend
whenever gtag is present (whatever the RudderStack availability), and to
the customer-data-platform backend whenever RudderStack is present
(whatever the gtag availability). -/
theorem C4_dual_partial_availability (env : Env) :
    (isGtagAvailable env = true →
      (∀ name props, containsGtagEventNamed name (trackDualEvent env name props) = true) ∧
      (∀ formName success,
        containsGtagEventNamed (if success then "form_submit_success" else "form_submit_error")
          (trackFormSubmitDual env formName success) = true) ∧
      (∀ plan action,
        containsGtagEventNamed ("pricing_" ++ PricingAction.toStr action)
          (trackPricingInteractionDual env plan action) = true)) ∧
    (isRudderStackAvailable env = true →
      (∀ name props, containsRudderTrackNamed name (trackDualEvent env name props) = true) ∧
      (∀ formName success,
        containsRudderTrackNamed (if success then "Form Submitted" else "Form Error")
          (trackFormSubmitDual env formName success) = true) ∧
      (∀ plan action,
        containsRudderTrackNamed
          (match action with
           | PricingAction.view => "Pricing Viewed"
           | PricingAction.click => "Pricing Plan Selected")
          (trackPricingInteractionDual env plan action) = true)) := by
  constructor
  · intro hg
    refine ⟨fun name props => ?_, fun formName success => ?_, fun plan action => ?_⟩
    · simp [trackDualEvent, trackEvent, hg, containsGtagEventNamed, isGtagEventNamed]
    · cases success <;>
        simp [trackFormSubmitDual, trackFormSubmission, trackEvent, hg,
          containsGtagEventNamed, isGtagEventNamed]
    · cases action <;>
        simp [trackPricingInteractionDual, trackPricingInteraction, trackEvent, hg,
          containsGtagEventNamed, isGtagEventNamed, PricingAction.toStr]
  · intro hr
    refine ⟨fun name props => ?_, fun formName success => ?_, fun plan action => ?_⟩
    · simp [trackDualEvent, hr, containsRudderTrackNamed, isRudderTrackNamed]
    · cases success <;>
        simp [trackFormSubmitDual, hr, containsRudderTrackNamed, isRudderTrackNamed]
    · cases action <;>
        simp [trackPricingInteractionDual, hr, containsRudderTrackNamed, isRudderTrackNamed]

/-- C4 witness: with only gtag present the GA4 leg still fires, and with
only RudderStack present the RudderStack leg still fires. -/
theorem C4_witness :
    containsGtagEventNamed "Button Clicked" (trackDualEvent envGtagOnly "Button Clicked" none) = true ∧
    containsRudderTrackNamed "Button Clicked" (trackDualEvent envRudderOnly "Button Clicked" none) = true :=
  ⟨((C4_dual_partial_availability envGtagOnly).1 rfl).1 "Button Clicked" none,
   ((C4_dual_partial_availability envRudderOnly).2 rfl).1 "Button Clicked" none⟩

/-- Spread semantics of `Rec` lookups: a key bound on the right-hand list
shadows the left-hand list. -/
theorem getProp_append (a b : Rec) (k : String) :
    getProp (a ++ b) k = ((getProp b k).or (getProp a k)) := by
  unfold getProp
  rw [List.reverse_append, List.find?_append]
  cases b.reverse.find? (fun p => p.1 == k) <;> simp [Option.or]

/-- C8: `trackEnhanced` merges the caller-supplied properties on top of the
full enriched context (caller values win every key collision, enrichment
fills the rest) and forwards the merged payload on both legs: RudderStack
receives the merged record itself, and the GA4 leg is shaped from the
merged record's `category` and `label` fields. -/
theorem C8_enhanced_merge_caller_wins (env : Env) (eventName : String) (props : Rec) :
    (∀ k v, getProp props k = some v →
      getProp (getEnrichedContext env ++ props) k = some v) ∧
    (∀ k, getProp props k = none →
      getProp (getEnrichedContext env ++ props) k = getProp (getEnrichedContext env) k) ∧
    (isRudderStackAvailable env = true →
      Call.rudderTrack eventName (getEnrichedContext env ++ props) ∈
        trackEnhanced env eventName (some props)) ∧
    (isGtagAvailable env = true →
      Call.gtagEvent eventName
        [("event_category",
          jsOr ((getProp (getEnrichedContext env ++ props) "category").getD JsVal.undefined)
            (JsVal.str "engagement")),
         ("event_label", (getProp (getEnrichedContext env ++ props) "label").getD JsVal.undefined),
         ("value", JsVal.undefined)] ∈ trackEnhanced env eventName (some props)) := by
  refine ⟨fun k v h => ?_, fun k h => ?_, fun hr => ?_, fun hg => ?_⟩
  · rw [getProp_append, h]
    rfl
  · rw [getProp_append, h]
    rfl
  · simp [trackEnhanced, hr]
  · simp [trackEnhanced, trackEvent, hg]

/-- C8 witness: a caller-supplied `category` overrides the enrichment (the
enriched context itself carries no `category` key), and the merged record
is what RudderStack receives. -/
theorem C8_witness :
    getProp (getEnrichedContext baseEnv ++ [("category", JsVal.str "business")]) "category" =
      some (JsVal.str "business") ∧
    Call.rudderTrack "Plan Compared" (getEnrichedContext baseEnv ++ [("category", JsVal.str "business")]) ∈
      trackEnhanced baseEnv "Plan Compared" (some [("category", JsVal.str "business")]) :=
  ⟨(C8_enhanced_merge_caller_wins baseEnv "Plan Compared" [("category", JsVal.str "business")]).1
      "category" (JsVal.str "business") rfl,
   (C8_enhanced_merge_caller_wins baseEnv "Plan Compared" [("category", JsVal.str "business")]).2.2.1
      rfl⟩

/-- When RudderStack is available, one `trackEnhanced` invocation emits
exactly one RudderStack event with its event name. -/
theorem rudderNamedCount_trackEnhanced (env : Env) (name : String) (p : Option Rec)
    (h : isRudderStackAvailable env = true) :
    rudderNamedCount name (trackEnhanced env name p) = 1 := by
  unfold trackEnhanced rudderNamedCount trackEvent
  rw [h]
  cases hg : isGtagAvailable env <;>
    simp [hg, List.filter_append, isRudderTrackNamed]

/-- When RudderStack is available, `trackEnhanced` forwards the merged
payload (context under caller properties) to RudderStack. -/
theorem rudderTrack_mem_trackEnhanced (env : Env) (name : String) (p : Rec)
    (h : isRudderStackAvailable env = true) :
    Call.rudderTrack name (getEnrichedContext env ++ p) ∈ trackEnhanced env name (some p) := by
  simp [trackEnhanced, h]

/-- One `detectRageClicks` call, from a counter below the threshold: the
counter either fires-and-resets (when the increment reaches 5) or just
increments, and the detection event fires exactly in the first case. -/
theorem detectRageClicks_step (env : Env) (counts : RageState) (e : DomElement)
    (hr : isRudderStackAvailable env = true) (hle : counts (elementIdOf e) ≤ 4) :
    (detectRageClicks env counts e).1 (elementIdOf e) =
      (if counts (elementIdOf e) + 1 = 5 then 0 else counts (elementIdOf e) + 1) ∧
    rudderNamedCount "Rage Click Detected" (detectRageClicks env counts e).2 =
      (if counts (elementIdOf e) + 1 = 5 then 1 else 0) := by
  have hb : bumpCount counts (elementIdOf e) (elementIdOf e) = counts (elementIdOf e) + 1 := by
    simp [bumpCount]
  by_cases h5 : counts (elementIdOf e) + 1 = 5
  · constructor
    · unfold detectRageClicks
      rw [hb, if_pos (by omega), if_pos h5]
      simp [resetCount]
    · unfold detectRageClicks
      rw [hb, if_pos (by omega), if_pos h5]
      exact rudderNamedCount_trackEnhanced env "Rage Click Detected" _ hr
  · constructor
    · unfold detectRageClicks
      rw [hb, if_neg (by omega), if_neg h5]
      simp [bumpCount]
    · unfold detectRageClicks
      rw [hb, if_neg (by omega), if_neg h5]
      rfl

/-- Clicking the same element repeatedly from module load: the counter
cycles through `n % 5` and the detection event fires exactly on every 5th
click. -/
theorem clickTrace_mod (env : Env) (e : DomElement)
    (hr : isRudderStackAvailable env = true) :
    ∀ n, clickTrace env e n (elementIdOf e) = n % 5 ∧
      rudderNamedCount "Rage Click Detected" (clickCalls env e n) =
        (if (n + 1) % 5 = 0 then 1 else 0) := by
  intro n
  induction n with
  | zero =>
    have h := detectRageClicks_step env rageInit e hr (by simp [rageInit])
    refine ⟨rfl, ?_⟩
    unfold clickCalls
    simpa [rageInit, clickTrace] using h.2
  | succ n ih =>
    have hle : clickTrace env e n (elementIdOf e) ≤ 4 := by
      rw [ih.1]; omega
    have h := detectRageClicks_step env (clickTrace env e n) e hr hle
    have hct : clickTrace env e (n + 1) (elementIdOf e) = (n + 1) % 5 := by
      show (detectRageClicks env (clickTrace env e n) e).1 (elementIdOf e) = (n + 1) % 5
      rw [h.1, ih.1]
      by_cases h4 : n % 5 = 4
      · rw [if_pos (by omega)]; omega
      · rw [if_neg (by omega)]; omega
    refine ⟨hct, ?_⟩
    show rudderNamedCount "Rage Click Detected"
      (detectRageClicks env (clickTrace env e (n + 1)) e).2 = _
    have hle1 : clickTrace env e (n + 1) (elementIdOf e) ≤ 4 := by
      rw [hct]; omega
    have h1 := detectRageClicks_step env (clickTrace env e (n + 1)) e hr hle1
    rw [h1.2, hct]
    by_cases h4 : (n + 1) % 5 = 4
    · rw [if_pos (by omega), if_pos (by omega)]
    · rw [if_neg (by omega), if_neg (by omega)]

/-- C2: each `detectRageClicks` call increments the element's counter by
one; exactly when the counter reaches 5 it emits exactly one detection
event and resets the counter to 0; and along the canonical click sequence
from module load, a detection fires exactly on every 5th click (so clicks
6 through 9 emit nothing until 5 further clicks accumulate). -/
theorem C2_rage_click_threshold :
    (∀ env counts e, isRudderStackAvailable env = true →
      counts (elementIdOf e) ≤ 4 →
      (counts (elementIdOf e) + 1 = 5 →
        rudderNamedCount "Rage Click Detected" (detectRageClicks env counts e).2 = 1 ∧
        (detectRageClicks env counts e).1 (elementIdOf e) = 0) ∧
      (counts (elementIdOf e) + 1 < 5 →
        rudderNamedCount "Rage Click Detected" (detectRageClicks env counts e).2 = 0 ∧
        (detectRageClicks env counts e).1 (elementIdOf e) = counts (elementIdOf e) + 1)) ∧
    (∀ env e n, isRudderStackAvailable env = true →
      clickTrace env e n (elementIdOf e) = n % 5 ∧
      rudderNamedCount "Rage Click Detected" (clickCalls env e n) =
        (if (n + 1) % 5 = 0 then 1 else 0)) := by
  constructor
  · intro env counts e hr hle
    have h := detectRageClicks_step env counts e hr hle
    constructor
    · intro h5
      exact ⟨by rw [h.2, if_pos h5], by rw [h.1, if_pos h5]⟩
    · intro hlt
      have hne : ¬(counts (elementIdOf e) + 1 = 5) := by omega
      exact ⟨by rw [h.2, if_neg hne], by rw [h.1, if_neg hne]⟩
  · intro env e n hr
    exact clickTrace_mod env e hr n

/-- C2 witness: on a concrete element, the 5th click fires the detection
and the 6th does not. -/
theorem C2_witness :
    rudderNamedCount "Rage Click Detected" (clickCalls baseEnv ⟨"btn", ""⟩ 4) = 1 ∧
    rudderNamedCount "Rage Click Detected" (clickCalls baseEnv ⟨"btn", ""⟩ 5) = 0 := by
  constructor
  · have h := (C2_rage_click_threshold.2 baseEnv ⟨"btn", ""⟩ 4 rfl).2
    simpa using h
  · have h := (C2_rage_click_threshold.2 baseEnv ⟨"btn", ""⟩ 5 rfl).2
    simpa using h

/-- Flooring division transfers from `Int.fdiv` to `Nat` division on
nonnegative numerators. -/
theorem fdiv_ofNat (m n : Nat) :
    Int.fdiv (Int.ofNat m) (Int.ofNat n) = Int.ofNat (m / n) := by
  cases m with
  | zero => simp [Int.fdiv]
  | succ m => rfl

/-- C9: a Visible-to-Hidden transition leaves the timer unchanged and emits
exactly one `Page Hidden` event whose duration field is the floor of the
elapsed visible time in seconds; a Hidden-to-Visible transition resets the
timer to the current time and emits one `Page Visible` event carrying no
caller-supplied properties (its payload is the bare enriched context). -/
theorem C9_visibility_tracking (env : Env) (st : VisState)
    (hr : isRudderStackAvailable env = true) (hm : st.pageVisibleStart ≤ env.nowMs) :
    ((visibilityChangeStep env st true).1 = st ∧
     rudderNamedCount "Page Hidden" (visibilityChangeStep env st true).2 = 1 ∧
     Call.rudderTrack "Page Hidden"
       (getEnrichedContext env ++
        [("visible_duration_seconds",
          JsVal.num ((((env.nowMs - st.pageVisibleStart) / 1000 : Nat) : Int)))]) ∈
       (visibilityChangeStep env st true).2 ∧
     1000 * ((env.nowMs - st.pageVisibleStart) / 1000) ≤ env.nowMs - st.pageVisibleStart ∧
     env.nowMs - st.pageVisibleStart < 1000 * ((env.nowMs - st.pageVisibleStart) / 1000 + 1)) ∧
    ((visibilityChangeStep env st false).1 = { pageVisibleStart := env.nowMs } ∧
     rudderNamedCount "Page Visible" (visibilityChangeStep env st false).2 = 1 ∧
     Call.rudderTrack "Page Visible" (getEnrichedContext env ++ ([] : Rec)) ∈
       (visibilityChangeStep env st false).2) := by
  have h1 : ((env.nowMs : Int) - (st.pageVisibleStart : Int)) =
      ((env.nowMs - st.pageVisibleStart : Nat) : Int) := by omega
  have hc : ((env.nowMs : Int) - (st.pageVisibleStart : Int)).fdiv 1000 =
      (((env.nowMs - st.pageVisibleStart) / 1000 : Nat) : Int) := by
    rw [h1]
    exact fdiv_ofNat _ 1000
  refine ⟨⟨rfl, ?_, ?_, by omega, by omega⟩, rfl, ?_, ?_⟩
  · exact rudderNamedCount_trackEnhanced env "Page Hidden" _ hr
  · rw [← hc]
    exact rudderTrack_mem_trackEnhanced env "Page Hidden" _ hr
  · exact rudderNamedCount_trackEnhanced env "Page Visible" _ hr
  · exact rudderTrack_mem_trackEnhanced env "Page Visible" [] hr

/-- C9 witness: a concrete Hidden transition 4000 ms after the Visible
transition emits one `Page Hidden` event, and a Visible transition resets
the timer to now. -/
theorem C9_witness :
    rudderNamedCount "Page Hidden" (visibilityChangeStep baseEnv ⟨1000⟩ true).2 = 1 ∧
    (visibilityChangeStep baseEnv ⟨1000⟩ false).1 = ⟨5000⟩ := by
  have h := C9_visibility_tracking baseEnv ⟨1000⟩ rfl (by decide)
  exact ⟨h.1.2.1, h.2.1⟩

/-- Once the first-touch key is present, any further sequence of
`trackFirstTouch` invocations changes nothing and emits nothing. -/
theorem trackFirstTouchSeq_noop (store : Storage) (envs : List Env)
    (h : ∃ r, store FIRST_TOUCH_KEY = some r) :
    trackFirstTouchSeq store envs = (store, []) := by
  obtain ⟨r, hsome⟩ := h
  induction envs with
  | nil => rfl
  | cons env rest ih =>
    have h1 : trackFirstTouch env store = (store, []) := by
      unfold trackFirstTouch
      rw [hsome]
    simp [trackFirstTouchSeq, h1, ih]

/-- C10: when RudderStack is absent at the first `trackFirstTouch` of a
storage lifetime, the record is still persisted but no `First Touch` event
is emitted, and since the stored record blocks all later writes, no
invocation in the rest of the lifetime emits anything — even if RudderStack
becomes available later. -/
theorem C10_first_touch_never_emitted (env0 : Env) (envs : List Env) (store : Storage)
    (h0 : store FIRST_TOUCH_KEY = none) (hr : isRudderStackAvailable env0 = false) :
    (∃ r, (trackFirstTouch env0 store).1 FIRST_TOUCH_KEY = some r) ∧
    (trackFirstTouch env0 store).2 = [] ∧
    (trackFirstTouchSeq (trackFirstTouch env0 store).1 envs).2 = [] := by
  have h1 : (trackFirstTouch env0 store).1 FIRST_TOUCH_KEY =
      some (getUTMParameters env0 ++
        [("referrer", JsVal.str env0.referrer),
         ("landing_page", JsVal.str env0.href),
         ("timestamp", JsVal.str env0.nowISO)]) := by
    unfold trackFirstTouch
    rw [h0]
    simp [setItem]
  have h2 : (trackFirstTouch env0 store).2 = [] := by
    unfold trackFirstTouch
    rw [h0]
    simp [hr]
  have h3 := trackFirstTouchSeq_noop (trackFirstTouch env0 store).1 envs ⟨_, h1⟩
  exact ⟨⟨_, h1⟩, h2, by rw [h3]⟩

/-- C10 witness: with RudderStack absent on the first page load and present
on the next, no call is ever emitted by the first-touch capture. -/
theorem C10_witness :
    (trackFirstTouch envGtagOnly emptyStorage).2 = [] ∧
    (trackFirstTouchSeq (trackFirstTouch envGtagOnly emptyStorage).1 [baseEnv]).2 = [] := by
  have h := C10_first_touch_never_emitted envGtagOnly [baseEnv] emptyStorage rfl rfl
  exact ⟨h.2.1, h.2.2⟩

end Analytics
